import Mathlib

/-!
Verification of the scripting-facing SDK compatibility layer:
the auth transform table, the Request/RequestBody/Response model and the
dispatch bridge, embedded shallowly from
packages/insomnia/src/renderers/hidden-browser-window/sdk-objects/send-req.ts
and req-resp.ts. Collaborator value types that live outside these two files
(status-code table, cookie parsing, Url and Header wrappers) are modelled from
the specification and marked as such in their doc comments.
-/

namespace InsoSdk

/-- A JavaScript runtime value as it occurs in the auth objects of this layer:
a string, a boolean, undefined, or a key/value pair object (the element that
Array.prototype.find returns). -/
inductive JVal where
  | vStr : String → JVal
  | vBool : Bool → JVal
  | vUndefined : JVal
  | vObjKV : String → JVal → JVal
deriving DecidableEq

/-- JavaScript truthiness on JVal: the empty string, false and undefined are
falsy; every object is truthy. -/
def JVal.truthy : JVal → Bool
  | .vStr s => s != ""
  | .vBool b => b
  | .vUndefined => false
  | .vObjKV _ _ => true

/-- The JavaScript short-circuit disjunction a or-else b on JVal values. -/
def jor (a b : JVal) : JVal := if a.truthy then a else b

/-- JavaScript template-literal rendering of a JVal, as used in the error
messages of the source. -/
def JVal.render : JVal → String
  | .vStr s => s
  | .vBool b => if b then "true" else "false"
  | .vUndefined => "undefined"
  | .vObjKV _ _ => "[object Object]"

/-- A flat JavaScript object of JVal fields: property access as a total
function, with absent properties reading undefined. -/
def JsObj := String → JVal

/-- The empty object literal. -/
def jsEmpty : JsObj := fun _ => .vUndefined

/-- An engine-form auth object: an ordered list of named JVal fields, in the
order the source object literals write them. -/
def EngineAuth := List (String × JVal)

instance : DecidableEq EngineAuth := by
  unfold EngineAuth
  infer_instance

/-- Auth scheme identifier constants (send-req.ts lines 11 to 24). -/
def AUTH_NONE : String := "none"

def AUTH_OAUTH_2 : String := "oauth2"

def AUTH_OAUTH_1 : String := "oauth1"

def AUTH_BASIC : String := "basic"

def AUTH_DIGEST : String := "digest"

def AUTH_NTLM : String := "ntlm"

def AUTH_HAWK : String := "hawk"

def AUTH_AWS_IAM : String := "iam"

def AUTH_NETRC : String := "netrc"

def AUTH_ASAP : String := "asap"

def HAWK_ALGORITHM_SHA256 : String := "sha256"

/-- Embedding of transformAuth (send-req.ts 82 to 166): produces the
engine-form object for the given scheme identifier, filling scheme defaults
over the fields of the given old auth object; the switch default (shared with
netrc) returns an object holding only the type field. -/
def transformAuth (type : String) (oldAuth : JsObj) : EngineAuth :=
  if type = AUTH_NONE then []
  else if type = AUTH_BASIC then
    [("type", .vStr type),
     ("useISO88591", jor (oldAuth "useISO88591") (.vBool false)),
     ("disabled", jor (oldAuth "disabled") (.vBool false)),
     ("username", jor (oldAuth "username") (.vStr "")),
     ("password", jor (oldAuth "password") (.vStr ""))]
  else if type = AUTH_DIGEST ∨ type = AUTH_NTLM then
    [("type", .vStr type),
     ("disabled", jor (oldAuth "disabled") (.vBool false)),
     ("username", jor (oldAuth "username") (.vStr "")),
     ("password", jor (oldAuth "password") (.vStr ""))]
  else if type = AUTH_OAUTH_1 then
    [("type", .vStr type),
     ("disabled", .vBool false),
     ("signatureMethod", .vStr "HMAC-SHA1"),
     ("consumerKey", .vStr ""),
     ("consumerSecret", .vStr ""),
     ("tokenKey", .vStr ""),
     ("tokenSecret", .vStr ""),
     ("privateKey", .vStr ""),
     ("version", .vStr "1.0"),
     ("nonce", .vStr ""),
     ("timestamp", .vStr ""),
     ("callback", .vStr "")]
  else if type = AUTH_OAUTH_2 then
    [("type", .vStr type),
     ("grantType", .vStr "authorization_code")]
  else if type = AUTH_AWS_IAM then
    [("type", .vStr type),
     ("disabled", jor (oldAuth "disabled") (.vBool false)),
     ("accessKeyId", jor (oldAuth "accessKeyId") (.vStr "")),
     ("secretAccessKey", jor (oldAuth "secretAccessKey") (.vStr "")),
     ("sessionToken", jor (oldAuth "sessionToken") (.vStr ""))]
  else if type = AUTH_HAWK then
    [("type", .vStr type),
     ("algorithm", .vStr HAWK_ALGORITHM_SHA256)]
  else if type = AUTH_ASAP then
    [("type", .vStr type),
     ("issuer", .vStr ""),
     ("subject", .vStr ""),
     ("audience", .vStr ""),
     ("additionalClaims", .vStr ""),
     ("keyId", .vStr ""),
     ("privateKey", .vStr "")]
  else
    [("type", .vStr type)]

/-- A persisted-form key/value entry; the value can be any JavaScript value at
runtime (transformToPreRequestAuth writes booleans into it). -/
structure PKV where
  key : String
  value : JVal
deriving DecidableEq

/-- The persisted and SDK auth JSON shape: a type string plus scheme-named
key/value arrays (spec section 6). RequestAuth.toJSON (auth.ts, not part of
src) produces this shape, which transformAuthentication consumes directly. -/
structure AuthObj where
  type : String
  sections : List (String × List PKV)
deriving DecidableEq

/-- Property access authObj.schemeName: the scheme-named array when present. -/
def AuthObj.sectionNamed (a : AuthObj) (name : String) : Option (List PKV) :=
  (a.sections.find? (fun p => p.1 == name)).map (fun p => p.2)

/-- Embedding of the findValueInObj helper inside transformAuthentication
(send-req.ts 170 to 181). Array.prototype.find returns the matching ELEMENT
and its second argument is the thisArg, so this evaluates to the whole pair
object when an entry with the target key and a truthy value exists, to
undefined when none does, and to the empty string when the array is absent. -/
def findValueInObj (targetKey : String) (kvs : Option (List PKV)) : JVal :=
  match kvs with
  | none => .vStr ""
  | some l =>
    match l.find? (fun kv => kv.key == targetKey && kv.value.truthy) with
    | some kv => .vObjKV kv.key kv.value
    | none => .vUndefined

/-- Embedding of transformAuthentication (send-req.ts 168 to 279): converts the
SDK persisted-form auth JSON to the engine form through transformAuth, throwing
on an unknown type. -/
def transformAuthentication (authObj : AuthObj) : Except String EngineAuth :=
  if authObj.type = "noauth" then .ok (transformAuth AUTH_NONE jsEmpty)
  else if authObj.type = "basic" then
    .ok (transformAuth AUTH_BASIC (fun k =>
      if k = "useISO88591" then .vBool false
      else if k = "disabled" then .vBool false
      else if k = "username" then findValueInObj "username" (authObj.sectionNamed "basic")
      else if k = "password" then findValueInObj "password" (authObj.sectionNamed "basic")
      else .vUndefined))
  else if authObj.type = "digest" then
    .ok (transformAuth AUTH_DIGEST (fun k =>
      if k = "disabled" then .vBool false
      else if k = "username" then findValueInObj "username" (authObj.sectionNamed "digest")
      else if k = "password" then findValueInObj "password" (authObj.sectionNamed "digest")
      else .vUndefined))
  else if authObj.type = "ntlm" then
    .ok (transformAuth AUTH_NTLM (fun k =>
      if k = "disabled" then .vBool false
      else if k = "username" then findValueInObj "username" (authObj.sectionNamed "ntlm")
      else if k = "password" then findValueInObj "password" (authObj.sectionNamed "ntlm")
      else .vUndefined))
  else if authObj.type = "oauth1" then
    .ok (transformAuth AUTH_OAUTH_1 (fun k =>
      if k = "disabled" then .vBool false
      else if k = "consumerKey" then findValueInObj "consumerKey" (authObj.sectionNamed "oauth1")
      else if k = "consumerSecret" then findValueInObj "consumerSecret" (authObj.sectionNamed "oauth1")
      else if k = "tokenKey" then findValueInObj "token" (authObj.sectionNamed "oauth1")
      else if k = "tokenSecret" then findValueInObj "tokenSecret" (authObj.sectionNamed "oauth1")
      else if k = "privateKey" then findValueInObj "consumerSecret" (authObj.sectionNamed "oauth1")
      else if k = "version" then findValueInObj "version" (authObj.sectionNamed "oauth1")
      else if k = "nonce" then findValueInObj "nonce" (authObj.sectionNamed "oauth1")
      else if k = "timestamp" then findValueInObj "timestamp" (authObj.sectionNamed "oauth1")
      else if k = "callback" then findValueInObj "callback" (authObj.sectionNamed "oauth1")
      else .vUndefined))
  else if authObj.type = "oauth2" then .ok (transformAuth AUTH_OAUTH_2 jsEmpty)
  else if authObj.type = "awsv4" then
    .ok (transformAuth AUTH_AWS_IAM (fun k =>
      if k = "disabled" then .vBool false
      else if k = "accessKeyId" then findValueInObj "accessKey" (authObj.sectionNamed "awsv4")
      else if k = "secretAccessKey" then findValueInObj "secretKey" (authObj.sectionNamed "awsv4")
      else if k = "sessionToken" then findValueInObj "sessionToken" (authObj.sectionNamed "awsv4")
      else .vUndefined))
  else if authObj.type = "hawk" then .ok (transformAuth AUTH_HAWK jsEmpty)
  else if authObj.type = "asap" then
    .ok (transformAuth AUTH_ASAP (fun k =>
      if k = "issuer" then findValueInObj "iss" (authObj.sectionNamed "asap")
      else if k = "subject" then findValueInObj "sub" (authObj.sectionNamed "asap")
      else if k = "audience" then findValueInObj "aud" (authObj.sectionNamed "asap")
      else if k = "additionalClaims" then findValueInObj "claims" (authObj.sectionNamed "asap")
      else if k = "keyId" then findValueInObj "kid" (authObj.sectionNamed "asap")
      else if k = "privateKey" then findValueInObj "privateKey" (authObj.sectionNamed "asap")
      else .vUndefined))
  else if authObj.type = "netrc" then .ok (transformAuth AUTH_NETRC jsEmpty)
  else .error ("unknown auth type: " ++ authObj.type)

/-- Embedding of transformToPreRequestAuth (send-req.ts 281 to 402): converts
an engine-form auth object back to the persisted form; a missing object or a
falsy type yields the noauth object, netrc throws its unsupported message, and
an unrecognized truthy type throws. -/
def transformToPreRequestAuth (auth : Option JsObj) : Except String AuthObj :=
  match auth with
  | none => .ok ⟨"noauth", []⟩
  | some a =>
    if (a "type").truthy = false then .ok ⟨"noauth", []⟩
    else
      match a "type" with
      | .vStr t =>
        if t = "noauth" then .ok ⟨"noauth", []⟩
        else if t = "basic" then
          .ok ⟨"basic", [("basic",
            [⟨"useISO88591", a "useISO88591"⟩,
             ⟨"disabled", a "disabled"⟩,
             ⟨"username", a "username"⟩,
             ⟨"password", a "password"⟩])]⟩
        else if t = "digest" then
          .ok ⟨"digest", [("digest",
            [⟨"disabled", a "disabled"⟩,
             ⟨"username", a "username"⟩,
             ⟨"password", a "password"⟩])]⟩
        else if t = "ntlm" then
          .ok ⟨"ntlm", [("ntlm",
            [⟨"disabled", a "disabled"⟩,
             ⟨"username", a "username"⟩,
             ⟨"password", a "password"⟩])]⟩
        else if t = "oauth1" then
          .ok ⟨"oauth1", [("oauth1",
            [⟨"disabled", a "disabled"⟩,
             ⟨"consumerKey", a "consumerKey"⟩,
             ⟨"consumerSecret", a "consumerSecret"⟩,
             ⟨"tokenKey", a "tokenKey"⟩,
             ⟨"tokenSecret", a "tokenSecret"⟩,
             ⟨"privateKey", a "privateKey"⟩,
             ⟨"version", a "version"⟩,
             ⟨"nonce", a "nonce"⟩,
             ⟨"timestamp", a "timestamp"⟩,
             ⟨"callback", a "callback"⟩])]⟩
        else if t = "oauth2" then
          .ok ⟨"oauth2", [("oauth2",
            [⟨"key", a "key"⟩,
             ⟨"value", a "value"⟩,
             ⟨"enabled", a "enabled"⟩,
             ⟨"send_as", a "send_as"⟩])]⟩
        else if t = "awsv4" then
          .ok ⟨"awsv4", [("awsv4",
            [⟨"disabled", a "disabled"⟩,
             ⟨"accessKeyId", a "accessKeyId"⟩,
             ⟨"secretAccessKey", a "secretAccessKey"⟩,
             ⟨"sessionToken", a "sessionToken"⟩])]⟩
        else if t = "hawk" then
          .ok ⟨"hawk", [("hawk",
            [⟨"includePayloadHash", a "includePayloadHash"⟩,
             ⟨"timestamp", a "timestamp"⟩,
             ⟨"delegation", a "delegation"⟩,
             ⟨"app", a "app"⟩,
             ⟨"extraData", a "extraData"⟩,
             ⟨"nonce", a "nonce"⟩,
             ⟨"user", a "user"⟩,
             ⟨"authKey", a "authKey"⟩,
             ⟨"authId", a "authId"⟩,
             ⟨"algorithm", a "algorithm"⟩,
             ⟨"id", a "id"⟩])]⟩
        else if t = "asap" then
          .ok ⟨"asap", [("asap",
            [⟨"exp", a "exp"⟩,
             ⟨"claims", a "claims"⟩,
             ⟨"sub", a "sub"⟩,
             ⟨"privateKey", a "privateKey"⟩,
             ⟨"kid", a "kid"⟩,
             ⟨"aud", a "aud"⟩,
             ⟨"iss", a "iss"⟩,
             ⟨"alg", a "alg"⟩,
             ⟨"id", a "id"⟩])]⟩
        else if t = "netrc" then .error "net rc is not supported yet"
        else .error ("unknown auth type or unsupported auth type: " ++ t)
      | v => .error ("unknown auth type or unsupported auth type: " ++ v.render)

/-- Modelled from the spec: the static status-code to reason-phrase table
(RESPONSE_CODE_REASONS, imported from common/constants which is not part of
src). Spec section 4.3 describes it as a static status-code table with
standard HTTP reason phrases, partial on unknown codes. -/
def RESPONSE_CODE_REASONS : Nat → Option String
  | 100 => some "Continue"
  | 200 => some "OK"
  | 201 => some "Created"
  | 204 => some "No Content"
  | 301 => some "Moved Permanently"
  | 302 => some "Found"
  | 304 => some "Not Modified"
  | 400 => some "Bad Request"
  | 401 => some "Unauthorized"
  | 403 => some "Forbidden"
  | 404 => some "Not Found"
  | 500 => some "Internal Server Error"
  | 502 => some "Bad Gateway"
  | 503 => some "Service Unavailable"
  | _ => none

/-- Modelled from the spec: the Header value type (headers.ts is not part of
src); a key/value pair with a disabled flag. Header construction from options
and Header.toJSON copy exactly these fields. -/
structure HeaderData where
  key : String
  value : String
  disabled : Bool
deriving DecidableEq

/-- The cookie fields the bridge copies out of a parsed cookie
(send-req.ts 595 to 616); this is also the cookie options shape the Response
constructor stores. -/
structure CookieData where
  key : String
  value : String
  expires : Option String
  maxAge : Option Nat
  domain : Option String
  path : Option String
  secure : Bool
  httpOnly : Bool
  hostOnly : Bool
deriving DecidableEq

/-- Splitting a character list at a separator character, the list-level
counterpart of String.split used so that all cookie parsing reduces inside the
kernel. -/
def splitChar (sep : Char) : List Char → List (List Char)
  | [] => [[]]
  | c :: cs =>
    let r := splitChar sep cs
    if c == sep then [] :: r
    else
      match r with
      | [] => [[c]]
      | x :: xs => (c :: x) :: xs

/-- Trimming surrounding spaces from a character list. -/
def trimChars (l : List Char) : List Char :=
  ((l.dropWhile (fun c => c == ' ')).reverse.dropWhile (fun c => c == ' ')).reverse

/-- Modelled from the spec: application of one cookie attribute during cookie
parsing, covering the attributes the bridge copies. -/
def applyCookieAttr (c : CookieData) (attr : List Char) : CookieData :=
  match (splitChar '=' attr).map trimChars with
  | [n, v] =>
    if n = "Path".data then { c with path := some (String.mk v) }
    else if n = "Domain".data then { c with domain := some (String.mk v) }
    else if n = "Expires".data then { c with expires := some (String.mk v) }
    else c
  | [n] =>
    if n = "Secure".data then { c with secure := true }
    else if n = "HttpOnly".data then { c with httpOnly := true }
    else c
  | _ => c

/-- Modelled from the spec: standard cookie-string parsing (tough-cookie
Cookie.parse, an external library not part of this repository). Spec section
4.3 requires each header value to be parsed independently with a failed parse
contributing no cookie, and the section 8 example fixes the behavior on two
inputs: sid=abc with a Path attribute parses to the single cookie sid=abc,
while malformed=== fails to parse. The model accordingly parses the leading
pair, requiring a nonempty key and an equals-free value, then folds the
remaining attributes. -/
def cookieParse (s : String) : Option CookieData :=
  match (splitChar ';' s.data).map trimChars with
  | [] => none
  | pair :: attrs =>
    match (splitChar '=' pair).map trimChars with
    | [k, v] =>
      if k = [] then none
      else
        some (attrs.foldl applyCookieAttr
          ⟨String.mk k, String.mk v, none, none, none, none, false, false, false⟩)
    | _ => none

/-- The ResponseOptions shape (req-resp.ts 467 to 477). -/
structure ResponseOptions where
  code : Nat
  reason : Option String
  header : Option (List HeaderData)
  cookie : Option (List CookieData)
  body : Option String
  stream : Option (List Nat)
  responseTime : Nat
  status : Option String
deriving DecidableEq

/-- The script-visible Response object (req-resp.ts 479 to 509). -/
structure Response where
  body : String
  code : Nat
  cookies : List CookieData
  headers : List HeaderData
  responseTime : Nat
  status : Option String
  stream : Option (List Nat)
deriving DecidableEq

/-- Embedding of the Response constructor (req-resp.ts 491 to 509): the body
defaults to the empty string, cookies and headers are copied from the options,
and status is assigned the table lookup of the code — the supplied reason and
status fields are never read. -/
def Response.ofOptions (o : ResponseOptions) : Response :=
  { body := o.body.getD ""
    code := o.code
    cookies := o.cookie.getD []
    headers := o.header.getD []
    responseTime := o.responseTime
    status := RESPONSE_CODE_REASONS o.code
    stream := o.stream }

/-- Embedding of Response.text (req-resp.ts 654 to 656). -/
def Response.text (r : Response) : String := r.body

/-- JavaScript String.prototype.charCodeAt folded to a Nat: the code unit at
the index, with an out-of-range access (NaN in JavaScript) collapsed to 0,
which matches none of the byte-order-mark codes compared against. -/
def charCodeAt (s : String) (i : Nat) : Nat :=
  ((s.data.get? i).map Char.toNat).getD 0

/-- Embedding of Response.findBOM (req-resp.ts 596 to 619). -/
def Response.findBOM (content : String) : Nat :=
  if charCodeAt content 0 = 0xFEFF ∨ charCodeAt content 0 = 0xBBBF then 1
  else if charCodeAt content 0 = 0xFE ∧ charCodeAt content 1 = 0xFF then 2
  else if charCodeAt content 0 = 0xFF ∧ charCodeAt content 1 = 0xFE then 2
  else if charCodeAt content 0 = 0xEF ∧ charCodeAt content 1 = 0xBB ∧
          charCodeAt content 2 = 0xBF then 3
  else 0

/-- Embedding of Response.json (req-resp.ts 621 to 639), parametric in the
JSON parser since JSON.parse with the caller-supplied reviver is a platform
builtin: a leading byte-order mark under strict throws before parsing,
otherwise the byte-order mark is stripped and the remaining content parsed,
with any parse failure message wrapped. -/
def Response.json {α : Type} (r : Response) (parse : String → Except String α)
    (strict : Bool) : Except String α :=
  let bomIndex := Response.findBOM r.text
  if 0 < bomIndex ∧ strict = true then
    .error "byte order mark (BOM) is found while strict=true"
  else
    let content := if 0 < bomIndex then r.text.drop bomIndex else r.text
    match parse content with
    | .ok v => .ok v
    | .error m => .error ("failed to get json of body: " ++ m)

/-- A key/value string pair (form-data and urlencoded entries, query
parameters). -/
structure KVStr where
  key : String
  value : String
deriving DecidableEq

/-- The RequestBody object (req-resp.ts 72 to 115): the mode tag and one
payload field per mode. The graphql payload is an opaque object, carried as
its JSON rendering. -/
structure RequestBody where
  mode : Option String
  file : Option String
  formdata : Option (List KVStr)
  graphql : Option String
  raw : Option String
  urlencoded : Option (List KVStr)
deriving DecidableEq

/-- Rendering of the mode inside the template literal of the unexpected-mode
error messages: an absent mode prints as undefined. -/
def modeRender : Option String → String
  | some s => s
  | none => "undefined"

/-- Embedding of RequestBody.isEmpty (req-resp.ts 117 to 132): dispatches on
the mode, reporting whether the payload of that mode is null, and throws on an
unexpected mode. -/
def RequestBody.isEmpty (b : RequestBody) : Except String Bool :=
  if b.mode = some "formdata" then .ok b.formdata.isNone
  else if b.mode = some "urlencoded" then .ok b.urlencoded.isNone
  else if b.mode = some "raw" then .ok b.raw.isNone
  else if b.mode = some "file" then .ok b.file.isNone
  else if b.mode = some "graphql" then .ok b.graphql.isNone
  else .error ("mode (" ++ modeRender b.mode ++ ") is unexpected")

/-- Modelled from the spec: serialization of an ordered key/value list
(PropertyList.toString, base.ts not part of src); entries render as key=value
(FormParam.toString, req-resp.ts 63 to 65) joined by a separator. -/
def kvListToString (l : List KVStr) : String :=
  String.intercalate ", " (l.map (fun kv => kv.key ++ "=" ++ kv.value))

/-- Embedding of the mode dispatch inside RequestBody.toString (req-resp.ts
136 to 148), before the surrounding try/catch: a falsy payload renders as the
empty string, the graphql object renders as its JSON rendering, and an
unexpected mode throws. -/
def RequestBody.toStringThrowing (b : RequestBody) : Except String String :=
  if b.mode = some "formdata" then
    .ok (match b.formdata with | some l => kvListToString l | none => "")
  else if b.mode = some "urlencoded" then
    .ok (match b.urlencoded with | some l => kvListToString l | none => "")
  else if b.mode = some "raw" then
    .ok (match b.raw with | some s => s | none => "")
  else if b.mode = some "file" then
    .ok (match b.file with | some s => s | none => "")
  else if b.mode = some "graphql" then
    .ok (match b.graphql with | some g => g | none => "")
  else .error ("mode (" ++ modeRender b.mode ++ ") is unexpected")

/-- Embedding of RequestBody.toString (req-resp.ts 134 to 153): the
surrounding try/catch downgrades the unexpected-mode throw to the empty
string. -/
def RequestBody.toString (b : RequestBody) : String :=
  match b.toStringThrowing with
  | .ok s => s
  | .error _ => ""

/-- Modelled from the spec: the Url value type (urls.ts is not part of src), a
structured wrapper carrying the parsed base and an ordered query-parameter
list; addQueryParams appends to that list (spec section 4.2). -/
structure UrlData where
  base : String
  query : List KVStr
deriving DecidableEq

/-- Modelled from the spec: Url.addQueryParams appends the structured
parameters to the query-parameter list of the url object. -/
def UrlData.addQueryParams (u : UrlData) (ps : List KVStr) : UrlData :=
  { u with query := u.query ++ ps }

/-- The mutable JavaScript heap restricted to the object kinds whose sharing
the clone claims discuss: Url objects, HeaderList contents and RequestBody
objects, addressed by allocation index. -/
structure Heap where
  urls : List UrlData
  headerLists : List (List HeaderData)
  bodies : List RequestBody
deriving DecidableEq

def Heap.getUrl (h : Heap) (i : Nat) : UrlData := h.urls.getD i ⟨"", []⟩

def Heap.setUrl (h : Heap) (i : Nat) (u : UrlData) : Heap :=
  { h with urls := h.urls.set i u }

def Heap.getHeaders (h : Heap) (i : Nat) : List HeaderData :=
  h.headerLists.getD i []

def Heap.getBody (h : Heap) (i : Nat) : RequestBody :=
  h.bodies.getD i ⟨none, none, none, none, none, none⟩

/-- Modelled value form of the ProxyConfig contents as copied field by field by
Request.clone and Request.toJSON (proxy-configs.ts is not part of src). -/
structure ProxyData where
  matchPattern : String
  host : String
  port : Nat
  tunnel : Bool
  disabled : Bool
  authenticate : Bool
  username : String
  password : String
deriving DecidableEq

/-- A certificate source holder: an object with a src field, as read through
certificate key, cert and pfx (send-req.ts 509 to 511). -/
structure SrcHolder where
  src : Option String
deriving DecidableEq

/-- Modelled value form of the Certificate contents as copied by Request.clone
and Request.toJSON (certificates.ts is not part of src); the Certificate
constructor is modelled as a field copy of these options. -/
structure CertData where
  name : Option String
  -- the source field is called matches, a reserved word here
  matchList : Option (List String)
  key : Option SrcHolder
  cert : Option SrcHolder
  passphrase : Option String
  pfx : Option SrcHolder
deriving DecidableEq

/-- The script-visible Request object (req-resp.ts 207 to 216) over the heap
model: url, header list and body are held by reference, the remaining fields
by value. -/
structure RequestObj where
  urlRef : Nat
  method : String
  headersRef : Nat
  bodyRef : Option Nat
  auth : AuthObj
  proxy : Option ProxyData
  certificate : Option CertData
deriving DecidableEq

/-- The url slot of RequestOptions: a bare string or a Url object reference
(req-resp.ts 190 to 198, 221 to 229). -/
inductive UrlInput where
  | str : String → UrlInput
  | ref : Nat → UrlInput
deriving DecidableEq

/-- The header slot of RequestOptions: an array of header options or a plain
object of key/value entries (req-resp.ts 232 to 247). -/
inductive HeaderInput where
  | list : List HeaderData → HeaderInput
  | obj : List (String × String) → HeaderInput
deriving DecidableEq

/-- The RequestBodyOptions shape (req-resp.ts 22 to 29). The source
additionally accepts the urlencoded payload as a raw encoded string parsed
through QueryParam.parse (urls.ts, not part of src); no claim exercises that
branch and it is not modelled. -/
structure RequestBodyOptions where
  mode : Option String
  file : Option String
  formdata : Option (List KVStr)
  graphql : Option String
  raw : Option String
  urlencoded : Option (List KVStr)
deriving DecidableEq

/-- Embedding of the RequestBody constructor (req-resp.ts 81 to 115) on
structured options: a field copy into a fresh object. -/
def RequestBody.ofOptions (o : RequestBodyOptions) : RequestBody :=
  { mode := o.mode, file := o.file, formdata := o.formdata,
    graphql := o.graphql, raw := o.raw, urlencoded := o.urlencoded }

/-- The RequestOptions shape (req-resp.ts 190 to 198) over the heap model. -/
structure RequestOptionsM where
  url : UrlInput
  method : Option String
  header : Option HeaderInput
  body : Option RequestBodyOptions
  auth : Option AuthObj
  proxy : Option ProxyData
  certificate : Option CertData
deriving DecidableEq

/-- The JavaScript falsy-default idiom value or-else default on an optional
string, as in options.method or-else GET. -/
def strOr (a : Option String) (d : String) : String :=
  match a with
  | some s => if s = "" then d else s
  | none => d

/-- Embedding of the Request constructor (req-resp.ts 218 to 253) over the
heap model: a string url allocates a fresh Url object (prepending the https
scheme when no scheme separator occurs in the string), while a Url object is
stored by reference; the headers are always copied into a freshly allocated
header list; a body options object always allocates a fresh RequestBody; auth
defaults to noauth; proxy and certificate are wrapped when present. -/
def Request.construct (h : Heap) (o : RequestOptionsM) : Heap × RequestObj :=
  let hu :=
    match o.url with
    | .str s =>
      let u : UrlData :=
        if 1 < (s.splitOn "://").length then ⟨s, []⟩ else ⟨"https://" ++ s, []⟩
      ({ h with urls := h.urls ++ [u] }, h.urls.length)
    | .ref i => (h, i)
  let h1 := hu.1
  let hdrs : List HeaderData :=
    match o.header with
    | none => []
    | some (.list l) => l
    | some (.obj kvs) => kvs.map (fun kv => ⟨kv.1, kv.2, false⟩)
  let h2 := { h1 with headerLists := h1.headerLists ++ [hdrs] }
  let hb :=
    match o.body with
    | none => (h2, none)
    | some bo =>
      ({ h2 with bodies := h2.bodies ++ [RequestBody.ofOptions bo] },
       some h2.bodies.length)
  (hb.1,
   { urlRef := hu.2
     method := strOr o.method "GET"
     headersRef := h1.headerLists.length
     bodyRef := hb.2
     auth := o.auth.getD ⟨"noauth", []⟩
     proxy := o.proxy
     certificate := o.certificate })

/-- The optionally chained view of a request body reference, as Request.clone
and Request.toJSON read it (req-resp.ts 285 to 292): each payload field of the
body object when one is attached, undefined otherwise. -/
def bodyView (h : Heap) (br : Option Nat) : RequestBodyOptions :=
  let bv := br.map (Heap.getBody h)
  { mode := bv.bind (fun b => b.mode)
    file := bv.bind (fun b => b.file)
    formdata := bv.bind (fun b => b.formdata)
    graphql := bv.bind (fun b => b.graphql)
    raw := bv.bind (fun b => b.raw)
    urlencoded := bv.bind (fun b => b.urlencoded) }

/-- The optionally chained view of the certificate slot, as Request.clone and
Request.toJSON read it (req-resp.ts 304 to 311). -/
def certView (c : Option CertData) : CertData :=
  { name := c.bind (fun x => x.name)
    matchList := c.bind (fun x => x.matchList)
    key := c.bind (fun x => x.key)
    cert := c.bind (fun x => x.cert)
    passphrase := c.bind (fun x => x.passphrase)
    pfx := c.bind (fun x => x.pfx) }

/-- Embedding of Request.clone (req-resp.ts 280 to 313): re-runs the
constructor on a literal built from the current fields; the url is passed as
the object itself, headers and body payloads as copied JSON, auth as its JSON
value, proxy as a copied literal when present, and certificate as an
always-present literal of the optionally chained fields. -/
def Request.clone (h : Heap) (r : RequestObj) : Heap × RequestObj :=
  Request.construct h
    { url := .ref r.urlRef
      method := some r.method
      header := some (.list (Heap.getHeaders h r.headersRef))
      body := some (bodyView h r.bodyRef)
      auth := some r.auth
      proxy := r.proxy.map (fun p =>
        ⟨p.matchPattern, p.host, p.port, p.tunnel, p.disabled,
         p.authenticate, p.username, p.password⟩)
      certificate := some (certView r.certificate) }

/-- Embedding of Request.addQueryParams (req-resp.ts 271 to 273): delegates to
the url object, mutating it in place through the shared reference. -/
def Request.addQueryParams (h : Heap) (r : RequestObj) (params : List KVStr) : Heap :=
  Heap.setUrl h r.urlRef ((Heap.getUrl h r.urlRef).addQueryParams params)

/-- The settings consumed by the bridge (common.ts is not part of src; only
the followRedirects flag is read in these files). -/
structure Settings where
  followRedirects : Bool
deriving DecidableEq

/-- A transport-engine response header (send-req.ts 36 to 39). -/
structure ResponseHeader where
  name : String
  value : String
deriving DecidableEq

/-- The fields of the engine ResponsePatch (send-req.ts 41 to 60) that the
bridge reads: elapsedTime and bodyCompression; the remaining optional fields
are never consulted by this code. -/
structure ResponsePatch where
  bodyCompression : Option String
  elapsedTime : Nat
deriving DecidableEq

/-- One redirect-hop record of the engine result (send-req.ts 62 to 67). -/
structure HeaderResult where
  headers : List ResponseHeader
  version : String
  code : Nat
  reason : String
deriving DecidableEq

/-- The engine result shape (send-req.ts 75 to 80); the debugTimeline entries
are never read by the bridge and are omitted. -/
structure CurlRequestOutput where
  patch : ResponsePatch
  headerResults : List HeaderResult
  responseBodyPath : Option String
deriving DecidableEq

/-- The result of the out-of-band body read
(window.curl.readCurlResponse, an external collaborator per spec section 6). -/
structure BodyReadResult where
  body : String
  error : Option String
deriving DecidableEq

/-- JavaScript String.prototype.toLowerCase restricted to ASCII letters, the
only characters occurring in header names; defined over the character list so
that it reduces inside the kernel. -/
def asciiLower (s : String) : String :=
  String.mk (s.data.map (fun c =>
    if 65 ≤ c.toNat ∧ c.toNat ≤ 90 then Char.ofNat (c.toNat + 32) else c))

/-- The cookie extraction of fromCurlOutputToResponse (send-req.ts 591 to
616) on one hop record: filter the headers whose name lowercases to
set-cookie, parse each value independently, and drop the failed parses. -/
def cookiesOfLast (last : HeaderResult) : List CookieData :=
  ((last.headers.filter (fun hd => asciiLower hd.name == "set-cookie")).map
    (fun ch => cookieParse ch.value)).filterMap id

/-- The header mapping of fromCurlOutputToResponse (send-req.ts 588 to 590):
each engine response header becomes a header option with its name as key. -/
def headersOfHop (last : HeaderResult) : List HeaderData :=
  last.headers.map (fun hd => ⟨hd.name, hd.value, false⟩)

/-- Embedding of fromCurlOutputToResponse (send-req.ts 532 to 648), parametric
in the out-of-band body reader: the last redirect-hop record is authoritative
for code, reason and headers; cookies come from its set-cookie headers; with
no responseBodyPath the response carries an empty inline body, otherwise the
stored body is read, a read error failing the whole conversion. An empty
headerResults list makes the source crash with a TypeError on undefined,
modelled as an error result. -/
def fromCurlOutputToResponse
    (readBody : String → Option String → BodyReadResult)
    (result : CurlRequestOutput) : Except String Response :=
  match result.headerResults.getLast? with
  | none => .error "TypeError: Cannot read properties of undefined"
  | some lastRedirect =>
    let code := lastRedirect.code
    let reason := lastRedirect.reason
    let status := lastRedirect.reason
    let responseTime := result.patch.elapsedTime
    let headers : List HeaderData := headersOfHop lastRedirect
    let cookies := cookiesOfLast lastRedirect
    match result.responseBodyPath with
    | none =>
      .ok (Response.ofOptions
        { code := code, reason := some reason, header := some headers,
          cookie := some cookies, body := some "", stream := none,
          responseTime := responseTime, status := some status })
    | some bodyPath =>
      let bodyResult := readBody bodyPath result.patch.bodyCompression
      if bodyResult.error.getD "" ≠ "" then .error (bodyResult.error.getD "")
      else
        .ok (Response.ofOptions
          { code := code, reason := some reason, header := some headers,
            cookie := some cookies, body := some bodyResult.body, stream := none,
            responseTime := responseTime, status := some status })

/-- The lowered engine options of the bare-string branch of
fromRequestToCurlOptions (send-req.ts 449 to 475), restricted to the request
fields that branch sets. -/
structure CurlRequestOptions where
  requestId : String
  headers : List ResponseHeader
  method : String
  bodyText : Option String
  authentication : EngineAuth
  settingFollowRedirects : String
  settingRebuildPath : Bool
  settingSendCookies : Bool
  url : String
  finalUrl : String
  suppressUserAgent : Bool
deriving DecidableEq

/-- Embedding of the bare-string branch of fromRequestToCurlOptions
(send-req.ts 449 to 475); uuid stands for the freshly minted uuidv4 value (an
external generator). The authentication field holds the noauth engine form,
which transformAuthentication maps to the empty object. -/
def fromStringToCurlOptions (uuid : String) (req : String) (settings : Settings) :
    CurlRequestOptions :=
  { requestId := "pre-request-script-adhoc-str-req:" ++ uuid
    headers := []
    method := "GET"
    bodyText := none
    authentication := (transformAuthentication ⟨"noauth", []⟩).toOption.getD []
    settingFollowRedirects := if settings.followRedirects then "on" else "off"
    settingRebuildPath := true
    settingSendCookies := true
    url := req
    finalUrl := req
    suppressUserAgent := false }

/-- The observable events of one sendRequest call: cancellation-map writes,
the engine dispatch, and the callback invocation. -/
inductive Event where
  | setCancel : String → Event
  | dispatchStart : String → Event
  | deleteCancel : String → Event
  | callback : Option String → Option Response → Event
deriving DecidableEq

/-- How one dispatch settles: the engine promise resolves with an output,
rejects (transport failure, or the abort triggered by the cancellation
handle), or starting the dispatch throws synchronously, distinguished by
whether the thrown error carries the AbortError name. -/
inductive DispatchOutcome where
  | success : CurlRequestOutput → DispatchOutcome
  | rejected : String → DispatchOutcome
  | syncThrow : Bool → String → DispatchOutcome
deriving DecidableEq

/-- Embedding of HttpSendRequest.sendRequest after lowering (send-req.ts 404
to 442) as the event trace of one call: the cancellation entry is registered,
then the dispatch starts, then the call settles according to the outcome. The
synchronous catch deletes the cancellation entry and reports the distinguished
cancellation message for an AbortError; the promise rejection path and both
branches of the success path invoke the callback without deleting the
entry. -/
def sendRequestTrace (requestId : String)
    (readBody : String → Option String → BodyReadResult)
    (outcome : DispatchOutcome) : List Event :=
  [Event.setCancel requestId, Event.dispatchStart requestId] ++
    match outcome with
    | .syncThrow isAbort msg =>
      [Event.deleteCancel requestId,
       Event.callback
         (some (if isAbort then "Request was cancelled: " ++ msg
                else "Something went wrong: " ++ msg)) none]
    | .rejected e => [Event.callback (some e) none]
    | .success out =>
      match fromCurlOutputToResponse readBody out with
      | .ok resp => [Event.callback none (some resp)]
      | .error e => [Event.callback (some e) none]

/-- Embedding of HttpSendRequest.sendRequest on a bare string url: lowering
through the string branch, then the dispatch trace under the minted request
id. -/
def sendRequestStr (uuid : String) (url : String) (settings : Settings)
    (readBody : String → Option String → BodyReadResult)
    (outcome : DispatchOutcome) : List Event :=
  sendRequestTrace (fromStringToCurlOptions uuid url settings).requestId
    readBody outcome

/-- Whether the process-wide cancellation map still holds the given request id
after the events of the trace have run. -/
def mapHolds (trace : List Event) (id : String) : Bool :=
  trace.foldl
    (fun acc ev =>
      match ev with
      | .setCancel i => if i == id then true else acc
      | .deleteCancel i => if i == id then false else acc
      | _ => acc)
    false

/-- The response delivered through the callback in the trace, when any. -/
def deliveredResponse (trace : List Event) : Option Response :=
  trace.foldl
    (fun acc ev =>
      match ev with
      | Event.callback _ r => r
      | _ => acc)
    none

/-! Theorems settling the claims, preceded by shared helper lemmas. -/

/-- Helper: every successful result of fromCurlOutputToResponse carries the
code, headers, cookies and table status of the last redirect-hop record. -/
theorem fromCurl_ok_fields (readBody : String → Option String → BodyReadResult)
    (result : CurlRequestOutput) (last : HeaderResult) (resp : Response)
    (hl : result.headerResults.getLast? = some last)
    (h : fromCurlOutputToResponse readBody result = .ok resp) :
    resp.code = last.code ∧ resp.headers = headersOfHop last ∧
    resp.cookies = cookiesOfLast last ∧
    resp.status = RESPONSE_CODE_REASONS last.code := by
  unfold fromCurlOutputToResponse at h
  rw [hl] at h
  cases hbp : result.responseBodyPath with
  | none =>
    rw [hbp] at h
    injection h with h2
    subst h2
    exact ⟨rfl, rfl, rfl, rfl⟩
  | some p =>
    rw [hbp] at h
    simp only at h
    split at h
    · exact absurd h (by simp)
    · injection h with h2
      subst h2
      exact ⟨rfl, rfl, rfl, rfl⟩

/-- Helper: a response delivered by the trace of a successful dispatch is
exactly the successful conversion of the engine output. -/
theorem delivered_of_success (rid : String)
    (readBody : String → Option String → BodyReadResult)
    (out : CurlRequestOutput) (resp : Response)
    (h : deliveredResponse (sendRequestTrace rid readBody (.success out))
          = some resp) :
    fromCurlOutputToResponse readBody out = .ok resp := by
  simp only [sendRequestTrace] at h
  cases hfc : fromCurlOutputToResponse readBody out with
  | ok r =>
    rw [hfc] at h
    simp [deliveredResponse] at h
    rw [h]
  | error e =>
    rw [hfc] at h
    simp [deliveredResponse] at h

/-- C1: evaluating the conversion at the failing input. A basic SDK auth whose
persisted array sets username joe and password pw converts to an engine object
whose username and password fields hold the whole key/value pair objects
instead of the strings joe and pw, because Array.prototype.find returns the
matching element (its second argument is the thisArg, not a default). The
claim that every explicitly set field value is carried into the engine field
therefore fails on the code. -/
theorem C1_basic_fields_hold_pair_objects :
    transformAuthentication
      ⟨"basic", [("basic", [⟨"username", .vStr "joe"⟩, ⟨"password", .vStr "pw"⟩])]⟩
      = .ok [("type", .vStr "basic"),
             ("useISO88591", .vBool false),
             ("disabled", .vBool false),
             ("username", .vObjKV "username" (.vStr "joe")),
             ("password", .vObjKV "password" (.vStr "pw"))] := by
  rfl

/-- C2 counterexample: transformAuth on the unrecognized type bogus silently
returns an object holding only the type field, and does not fail; this
falsifies the claim that an unrecognized type string fails at every conversion
boundary. -/
theorem C2_transformAuth_silent_on_unknown :
    transformAuth "bogus" jsEmpty = [("type", JVal.vStr "bogus")] := by
  rfl

/-- C2 amended: transformAuthentication and transformToPreRequestAuth fail on
an unrecognized truthy type string with an error message carrying that string,
while transformAuth silently returns an object holding only the type field
through its default branch. -/
theorem C2_unknown_type_behaviour (t : String)
    (h1 : t ≠ "noauth") (h2 : t ≠ "basic") (h3 : t ≠ "digest") (h4 : t ≠ "ntlm")
    (h5 : t ≠ "oauth1") (h6 : t ≠ "oauth2") (h7 : t ≠ "awsv4") (h8 : t ≠ "hawk")
    (h9 : t ≠ "asap") (h10 : t ≠ "netrc") (h11 : t ≠ "none") (h12 : t ≠ "iam")
    (h13 : t ≠ "") :
    (∀ sections, transformAuthentication ⟨t, sections⟩
        = .error ("unknown auth type: " ++ t)) ∧
    (∀ a : JsObj, a "type" = .vStr t →
      transformToPreRequestAuth (some a)
        = .error ("unknown auth type or unsupported auth type: " ++ t)) ∧
    (∀ old : JsObj, transformAuth t old = [("type", .vStr t)]) := by
  refine ⟨fun sections => ?_, fun a ha => ?_, fun old => ?_⟩
  · simp [transformAuthentication, h1, h2, h3, h4, h5, h6, h7, h8, h9, h10]
  · simp [transformToPreRequestAuth, ha, JVal.truthy, h1, h2, h3, h4, h5, h6,
      h7, h8, h9, h10, h13]
  · simp [transformAuth, AUTH_NONE, AUTH_BASIC, AUTH_DIGEST, AUTH_NTLM,
      AUTH_OAUTH_1, AUTH_OAUTH_2, AUTH_AWS_IAM, AUTH_HAWK, AUTH_ASAP,
      h2, h3, h4, h5, h6, h8, h9, h11, h12]

/-- C2 witness: the amended behavior evaluated at the concrete type bogus. -/
theorem C2_unknown_type_behaviour_witness :
    transformAuthentication ⟨"bogus", []⟩
      = .error ("unknown auth type: " ++ "bogus") :=
  (C2_unknown_type_behaviour "bogus" (by decide) (by decide) (by decide)
    (by decide) (by decide) (by decide) (by decide) (by decide) (by decide)
    (by decide) (by decide) (by decide) (by decide)).1 []

/-- C4 counterexample: a Response constructed with code 200 and the supplied
reason and status Custom still gets the table phrase OK as its status, which
differs from the supplied phrase; the constructor never reads the supplied
reason, falsifying the claim that a supplied reason phrase is used. -/
theorem C4_supplied_reason_ignored :
    (Response.ofOptions
      { code := 200, reason := some "Custom", header := none, cookie := none,
        body := none, stream := none, responseTime := 0,
        status := some "Custom" }).status = some "OK" ∧
    some "OK" ≠ some "Custom" := by
  exact ⟨rfl, by decide⟩

/-- C4 amended: the status of a constructed Response is always the table
lookup of its code, independent of any supplied reason or status, and a code
absent from the table leaves the status undefined. -/
theorem C4_status_always_table_lookup (o : ResponseOptions) :
    (Response.ofOptions o).status = RESPONSE_CODE_REASONS o.code ∧
    (∀ rs st, (Response.ofOptions { o with reason := rs, status := st }).status
        = (Response.ofOptions o).status) := by
  exact ⟨rfl, fun rs st => rfl⟩

/-- C10: transformToPreRequestAuth returns the noauth object for a missing
auth object and for any object whose type field is falsy, and an error result
can only arise when the type field is truthy. -/
theorem C10_falsy_type_yields_noauth :
    transformToPreRequestAuth none = .ok ⟨"noauth", []⟩ ∧
    (∀ a : JsObj, (a "type").truthy = false →
      transformToPreRequestAuth (some a) = .ok ⟨"noauth", []⟩) ∧
    (∀ a : JsObj, ∀ e, transformToPreRequestAuth (some a) = .error e →
      (a "type").truthy = true) := by
  refine ⟨rfl, fun a ha => ?_, fun a e he => ?_⟩
  · simp [transformToPreRequestAuth, ha]
  · by_cases ha : (a "type").truthy = true
    · exact ha
    · rw [eq_comm] at ha
      simp [transformToPreRequestAuth, Ne.symm ha] at he

/-- C10 witness: the noauth results evaluated at concrete inputs. -/
theorem C10_falsy_type_yields_noauth_witness :
    transformToPreRequestAuth (some (fun _ => JVal.vUndefined)) = .ok ⟨"noauth", []⟩ :=
  C10_falsy_type_yields_noauth.2.1 (fun _ => JVal.vUndefined) (by decide)

/-- C7: on any response body carrying a byte-order mark, json under strict
fails with the byte-order-mark error for every parser (so before any parse
attempt), and json without strict parses the content with the mark stripped;
and whenever the parser rejects the content actually submitted to it, json
fails with the wrapped parser message. -/
theorem C7_json_bom_strict_and_wrap {α : Type} (r : Response)
    (parse : String → Except String α) :
    (0 < Response.findBOM r.text →
      Response.json r parse true
        = .error "byte order mark (BOM) is found while strict=true") ∧
    (0 < Response.findBOM r.text →
      Response.json r parse false
        = match parse (r.text.drop (Response.findBOM r.text)) with
          | .ok v => .ok v
          | .error m => .error ("failed to get json of body: " ++ m)) ∧
    (∀ strict m, ¬ (0 < Response.findBOM r.text ∧ strict = true) →
      parse (if 0 < Response.findBOM r.text
             then r.text.drop (Response.findBOM r.text) else r.text)
        = .error m →
      Response.json r parse strict
        = .error ("failed to get json of body: " ++ m)) := by
  refine ⟨fun h => ?_, fun h => ?_, fun strict m hc hp => ?_⟩
  · simp [Response.json, h]
  · simp [Response.json, h]
  · simp only [Response.json, if_neg hc, if_pos, hp]

/-- C7 witness: a concrete body led by the byte-order mark U+FEFF under a
concrete parser, strict. -/
theorem C7_json_bom_strict_and_wrap_witness :
    Response.json
      (Response.ofOptions
        { code := 200, reason := none, header := none, cookie := none,
          body := some (String.mk (Char.ofNat 0xFEFF :: "true".data)),
          stream := none, responseTime := 0, status := none })
      (fun s => if s = "true" then Except.ok 0 else Except.error "bad")
      true
      = .error "byte order mark (BOM) is found while strict=true" :=
  (C7_json_bom_strict_and_wrap _ _).1 (by decide)

/-- The recognized body modes of RequestBody (req-resp.ts 20). -/
def recognizedModes : List (Option String) :=
  [some "formdata", some "urlencoded", some "raw", some "file", some "graphql"]

/-- C8: on any mode outside the recognized set, isEmpty fails with the message
naming the mode while toString returns the empty string; on each recognized
mode both operations dispatch on the payload field of that mode — isEmpty
reports whether it is absent, and toString renders it (a falsy payload
rendering as the empty string). -/
theorem C8_isEmpty_throws_toString_degrades (b : RequestBody) :
    (b.mode ∉ recognizedModes →
      b.isEmpty = .error ("mode (" ++ modeRender b.mode ++ ") is unexpected") ∧
      b.toString = "") ∧
    (b.mode = some "formdata" →
      b.isEmpty = .ok b.formdata.isNone ∧
      b.toString = (b.formdata.map kvListToString).getD "") ∧
    (b.mode = some "urlencoded" →
      b.isEmpty = .ok b.urlencoded.isNone ∧
      b.toString = (b.urlencoded.map kvListToString).getD "") ∧
    (b.mode = some "raw" →
      b.isEmpty = .ok b.raw.isNone ∧
      b.toString = b.raw.getD "") ∧
    (b.mode = some "file" →
      b.isEmpty = .ok b.file.isNone ∧
      b.toString = b.file.getD "") ∧
    (b.mode = some "graphql" →
      b.isEmpty = .ok b.graphql.isNone ∧
      b.toString = b.graphql.getD "") := by
  refine ⟨fun h => ?_, fun h => ?_, fun h => ?_, fun h => ?_, fun h => ?_,
    fun h => ?_⟩
  · simp only [recognizedModes, List.mem_cons, List.not_mem_nil, or_false,
      not_or] at h
    obtain ⟨n1, n2, n3, n4, n5⟩ := h
    exact ⟨by simp [RequestBody.isEmpty, n1, n2, n3, n4, n5],
      by simp [RequestBody.toString, RequestBody.toStringThrowing,
        n1, n2, n3, n4, n5]⟩
  · refine ⟨by simp [RequestBody.isEmpty, h], ?_⟩
    cases hf : b.formdata <;>
      simp [RequestBody.toString, RequestBody.toStringThrowing, h, hf]
  · refine ⟨by simp [RequestBody.isEmpty, h], ?_⟩
    cases hf : b.urlencoded <;>
      simp [RequestBody.toString, RequestBody.toStringThrowing, h, hf]
  · refine ⟨by simp [RequestBody.isEmpty, h], ?_⟩
    cases hf : b.raw <;>
      simp [RequestBody.toString, RequestBody.toStringThrowing, h, hf]
  · refine ⟨by simp [RequestBody.isEmpty, h], ?_⟩
    cases hf : b.file <;>
      simp [RequestBody.toString, RequestBody.toStringThrowing, h, hf]
  · refine ⟨by simp [RequestBody.isEmpty, h], ?_⟩
    cases hf : b.graphql <;>
      simp [RequestBody.toString, RequestBody.toStringThrowing, h, hf]

/-- C8 witness: the two failure policies evaluated at a concrete body with the
unrecognized mode bogus, and the recognized raw mode evaluated at a concrete
body carrying the raw payload hello. -/
theorem C8_isEmpty_throws_toString_degrades_witness :
    (RequestBody.isEmpty ⟨some "bogus", none, none, none, none, none⟩
      = .error ("mode (" ++ modeRender (some "bogus") ++ ") is unexpected") ∧
     RequestBody.toString ⟨some "bogus", none, none, none, none, none⟩ = "") ∧
    (RequestBody.isEmpty ⟨some "raw", none, none, none, some "hello", none⟩
      = .ok (some "hello").isNone ∧
     RequestBody.toString ⟨some "raw", none, none, none, some "hello", none⟩
      = (some "hello").getD "") :=
  ⟨(C8_isEmpty_throws_toString_degrades _).1 (by decide),
   (C8_isEmpty_throws_toString_degrades
     ⟨some "raw", none, none, none, some "hello", none⟩).2.2.2.1 rfl⟩

/-- Helper: reading a freshly appended heap cell yields the appended value. -/
theorem getD_concat_self {α : Type} (l : List α) (x d : α) :
    (l ++ [x]).getD l.length d = x := by
  induction l with
  | nil => rfl
  | cons a as ih => exact ih

/-- Helper: appending a heap cell preserves every existing cell. -/
theorem getD_concat_lt {α : Type} (l : List α) (x d : α) (i : Nat)
    (hi : i < l.length) : (l ++ [x]).getD i d = l.getD i d := by
  induction l generalizing i with
  | nil => exact absurd hi (by simp)
  | cons a as ih =>
    cases i with
    | zero => rfl
    | succ n => simpa using ih n (by simpa using hi)

/-- C3 counterexample: on a transport failure (a rejected engine promise) the
call reports the error through the callback, but the cancellation-map entry is
still registered after the call — a failure exit path on which the entry is
not removed, falsifying the removal part of the claim. -/
theorem C3_rejected_failure_keeps_entry :
    sendRequestTrace "req-1" (fun _ _ => ⟨"", none⟩) (.rejected "boom")
      = [Event.setCancel "req-1", Event.dispatchStart "req-1",
         Event.callback (some "boom") none] ∧
    mapHolds (sendRequestTrace "req-1" (fun _ _ => ⟨"", none⟩)
      (.rejected "boom")) "req-1" = true := by
  exact ⟨rfl, rfl⟩

/-- C3 amended: for every call the cancellation entry is registered before the
dispatch starts, and it is removed exactly on the synchronous
construction-error exit; on a promise-level failure (transport failure or
abort rejection) and on the success path the entry stays registered after the
callback fires. -/
theorem C3_entry_lifecycle (rid : String)
    (readBody : String → Option String → BodyReadResult)
    (outcome : DispatchOutcome) :
    ((sendRequestTrace rid readBody outcome).take 2
        = [Event.setCancel rid, Event.dispatchStart rid]) ∧
    (∀ ab msg, outcome = .syncThrow ab msg →
      mapHolds (sendRequestTrace rid readBody outcome) rid = false) ∧
    (∀ e, outcome = .rejected e →
      mapHolds (sendRequestTrace rid readBody outcome) rid = true) ∧
    (∀ out, outcome = .success out →
      mapHolds (sendRequestTrace rid readBody outcome) rid = true) := by
  refine ⟨rfl, ?_, ?_, ?_⟩
  · rintro ab msg rfl
    simp [sendRequestTrace, mapHolds]
  · rintro e rfl
    simp [sendRequestTrace, mapHolds]
  · rintro out rfl
    cases h : fromCurlOutputToResponse readBody out <;>
      simp [sendRequestTrace, mapHolds, h]

/-- C3 witness: the lifecycle evaluated on a concrete synchronous throw and on
a concrete rejection. -/
theorem C3_entry_lifecycle_witness :
    mapHolds (sendRequestTrace "req-2" (fun _ _ => ⟨"", none⟩)
      (.syncThrow true "stopped")) "req-2" = false :=
  (C3_entry_lifecycle "req-2" (fun _ _ => ⟨"", none⟩)
    (.syncThrow true "stopped")).2.1 true "stopped" rfl

/-- C6: cookie extraction depends only on the last redirect-hop record (every
successful conversion yields exactly the cookies of the last hop), matching
the set-cookie name case-insensitively and parsing each value independently
with failed parses dropped; on the spec example, a hop carrying one
well-formed and one malformed set-cookie value yields exactly the single
cookie sid=abc. -/
theorem C6_cookie_extraction_last_hop :
    (∀ (rb : String → Option String → BodyReadResult)
       (out : CurlRequestOutput) (last : HeaderResult) (resp : Response),
      out.headerResults.getLast? = some last →
      fromCurlOutputToResponse rb out = .ok resp →
      resp.cookies = cookiesOfLast last) ∧
    cookiesOfLast ⟨[⟨"SET-Cookie", "sid=abc; Path=/"⟩,
                    ⟨"set-cookie", "malformed==="⟩,
                    ⟨"X-Other", "y"⟩], "HTTP/1.1", 200, "OK"⟩
      = [⟨"sid", "abc", none, none, none, some "/", false, false, false⟩] := by
  refine ⟨fun rb out last resp hl h =>
    (fromCurl_ok_fields rb out last resp hl h).2.2.1, by decide⟩

/-- C6 witness: a concrete two-hop output whose first hop carries a decoy
set-cookie header; only the final hop cookies are delivered, and they consist
of exactly the cookie sid=abc. -/
theorem C6_cookie_extraction_last_hop_witness :
    (Response.ofOptions
      { code := 200, reason := some "OK",
        header := some (headersOfHop
          ⟨[⟨"SET-Cookie", "sid=abc; Path=/"⟩,
            ⟨"set-cookie", "malformed==="⟩,
            ⟨"X-Other", "y"⟩], "HTTP/1.1", 200, "OK"⟩),
        cookie := some (cookiesOfLast
          ⟨[⟨"SET-Cookie", "sid=abc; Path=/"⟩,
            ⟨"set-cookie", "malformed==="⟩,
            ⟨"X-Other", "y"⟩], "HTTP/1.1", 200, "OK"⟩),
        body := some "", stream := none, responseTime := 7,
        status := some "OK" }).cookies
      = [⟨"sid", "abc", none, none, none, some "/", false, false, false⟩] :=
  (C6_cookie_extraction_last_hop.1 (fun _ _ => ⟨"", none⟩)
    ⟨⟨none, 7⟩,
     [⟨[⟨"Set-Cookie", "decoy=1"⟩], "HTTP/1.1", 301, "Moved Permanently"⟩,
      ⟨[⟨"SET-Cookie", "sid=abc; Path=/"⟩,
        ⟨"set-cookie", "malformed==="⟩,
        ⟨"X-Other", "y"⟩], "HTTP/1.1", 200, "OK"⟩],
     none⟩
    ⟨[⟨"SET-Cookie", "sid=abc; Path=/"⟩,
      ⟨"set-cookie", "malformed==="⟩,
      ⟨"X-Other", "y"⟩], "HTTP/1.1", 200, "OK"⟩
    _ rfl rfl).trans C6_cookie_extraction_last_hop.2

/-- C9: when sendRequest on a bare string url succeeds and the engine output
carries one headerResults entry per redirect hop, the delivered response
carries the code and the headers of the last entry. -/
theorem C9_last_hop_code_delivered (uuid url : String) (settings : Settings)
    (readBody : String → Option String → BodyReadResult)
    (out : CurlRequestOutput) (last : HeaderResult) (resp : Response)
    (hl : out.headerResults.getLast? = some last)
    (hr : deliveredResponse
            (sendRequestStr uuid url settings readBody (.success out))
          = some resp) :
    resp.code = last.code ∧ resp.headers = headersOfHop last := by
  unfold sendRequestStr at hr
  have h := delivered_of_success _ readBody out resp hr
  have h2 := fromCurl_ok_fields readBody out last resp hl h
  exact ⟨h2.1, h2.2.1⟩

/-- C9 witness: a concrete two-hop engine output delivered through a bare
string url call; the delivered response carries the code 200 and the headers
of the second hop, not those of the redirect hop. -/
theorem C9_last_hop_code_delivered_witness :
    (Response.ofOptions
      { code := 200, reason := some "OK",
        header := some (headersOfHop
          ⟨[⟨"Content-Type", "text/plain"⟩], "HTTP/1.1", 200, "OK"⟩),
        cookie := some (cookiesOfLast
          ⟨[⟨"Content-Type", "text/plain"⟩], "HTTP/1.1", 200, "OK"⟩),
        body := some "", stream := none, responseTime := 5,
        status := some "OK" }).code = 200 ∧
    (Response.ofOptions
      { code := 200, reason := some "OK",
        header := some (headersOfHop
          ⟨[⟨"Content-Type", "text/plain"⟩], "HTTP/1.1", 200, "OK"⟩),
        cookie := some (cookiesOfLast
          ⟨[⟨"Content-Type", "text/plain"⟩], "HTTP/1.1", 200, "OK"⟩),
        body := some "", stream := none, responseTime := 5,
        status := some "OK" }).headers
      = headersOfHop ⟨[⟨"Content-Type", "text/plain"⟩], "HTTP/1.1", 200, "OK"⟩ :=
  C9_last_hop_code_delivered "uuid-1" "example.org" ⟨true⟩
    (fun _ _ => ⟨"", none⟩)
    ⟨⟨none, 5⟩,
     [⟨[⟨"Location", "next"⟩], "HTTP/1.1", 301, "Moved Permanently"⟩,
      ⟨[⟨"Content-Type", "text/plain"⟩], "HTTP/1.1", 200, "OK"⟩],
     none⟩
    ⟨[⟨"Content-Type", "text/plain"⟩], "HTTP/1.1", 200, "OK"⟩
    _ rfl rfl

/-- C5 counterexample: cloning a concrete request and then adding a query
parameter through the clone mutates the url of the original request as well,
because clone passes the url object itself back into the constructor, which
stores the same reference; both requests reference url cell 0, so the original
request sees the query parameter added through the clone. This falsifies the
claim that the clone shares no mutable sub-object with the source. -/
theorem C5_clone_shares_url_object :
    Heap.getUrl
      (Request.addQueryParams
        (Request.clone ⟨[⟨"https://a.com", []⟩], [[⟨"X", "1", false⟩]], []⟩
          ⟨0, "GET", 0, none, ⟨"noauth", []⟩, none, none⟩).1
        (Request.clone ⟨[⟨"https://a.com", []⟩], [[⟨"X", "1", false⟩]], []⟩
          ⟨0, "GET", 0, none, ⟨"noauth", []⟩, none, none⟩).2
        [⟨"q", "1"⟩])
      0
      = ⟨"https://a.com", [⟨"q", "1"⟩]⟩ ∧
    Heap.getUrl ⟨[⟨"https://a.com", []⟩], [[⟨"X", "1", false⟩]], []⟩ 0
      = ⟨"https://a.com", []⟩ := by
  decide

/-- C5 amended: clone preserves the content of every modelled field (method,
header content, body view, auth, proxy and certificate view), and its header
list and body are freshly allocated heap cells distinct from those of the
source and from every existing cell, so mutating them cannot affect the
source; the url object however is shared — the clone stores the same url
reference as the source, and no url copy is made. -/
theorem C5_clone_content_and_sharing (h : Heap) (r : RequestObj)
    (hm : r.method ≠ "") (hh : r.headersRef < h.headerLists.length) :
    (Request.clone h r).2.urlRef = r.urlRef ∧
    (Request.clone h r).1.urls = h.urls ∧
    (Request.clone h r).2.headersRef = h.headerLists.length ∧
    (Request.clone h r).2.headersRef ≠ r.headersRef ∧
    Heap.getHeaders (Request.clone h r).1 (Request.clone h r).2.headersRef
      = Heap.getHeaders h r.headersRef ∧
    (∀ i, i < h.headerLists.length →
      Heap.getHeaders (Request.clone h r).1 i = Heap.getHeaders h i) ∧
    (Request.clone h r).2.bodyRef = some h.bodies.length ∧
    (∀ j, r.bodyRef = some j → j < h.bodies.length →
      (Request.clone h r).2.bodyRef ≠ r.bodyRef) ∧
    bodyView (Request.clone h r).1 (Request.clone h r).2.bodyRef
      = bodyView h r.bodyRef ∧
    (Request.clone h r).2.method = r.method ∧
    (Request.clone h r).2.auth = r.auth ∧
    (Request.clone h r).2.proxy = r.proxy ∧
    certView (Request.clone h r).2.certificate = certView r.certificate := by
  refine ⟨rfl, rfl, rfl, ?_, ?_, ?_, rfl, ?_, ?_, ?_, rfl, ?_, ?_⟩
  · show h.headerLists.length ≠ r.headersRef
    omega
  · exact getD_concat_self _ _ _
  · exact fun i hi => getD_concat_lt _ _ _ i hi
  · intro j hj hlt
    rw [hj]
    show some h.bodies.length ≠ some j
    simp
    omega
  · show bodyView _ (some h.bodies.length) = bodyView h r.bodyRef
    simp only [bodyView, Request.clone, Request.construct, Heap.getBody,
      Option.map_some']
    rw [getD_concat_self]
    rfl
  · show strOr (some r.method) "GET" = r.method
    simp [strOr, hm]
  · show r.proxy.map (fun p =>
        (⟨p.matchPattern, p.host, p.port, p.tunnel, p.disabled,
          p.authenticate, p.username, p.password⟩ : ProxyData)) = r.proxy
    cases r.proxy <;> rfl
  · show certView (some (certView r.certificate)) = certView r.certificate
    rfl

/-- C5 witness: the amended clone behavior evaluated on the concrete heap and
request of the counterexample setting. -/
theorem C5_clone_content_and_sharing_witness :
    (Request.clone ⟨[⟨"https://b.org", []⟩], [[⟨"Y", "2", false⟩]], []⟩
      ⟨0, "GET", 0, none, ⟨"noauth", []⟩, none, none⟩).2.urlRef = 0 ∧
    (Request.clone ⟨[⟨"https://b.org", []⟩], [[⟨"Y", "2", false⟩]], []⟩
      ⟨0, "GET", 0, none, ⟨"noauth", []⟩, none, none⟩).2.headersRef ≠ 0 :=
  ⟨(C5_clone_content_and_sharing ⟨[⟨"https://b.org", []⟩], [[⟨"Y", "2", false⟩]], []⟩
      ⟨0, "GET", 0, none, ⟨"noauth", []⟩, none, none⟩ (by decide) (by decide)).1,
   (C5_clone_content_and_sharing ⟨[⟨"https://b.org", []⟩], [[⟨"Y", "2", false⟩]], []⟩
      ⟨0, "GET", 0, none, ⟨"noauth", []⟩, none, none⟩ (by decide) (by decide)).2.2.2.1⟩

end InsoSdk
